import Mathlib

/-!
Verification development for the EarthVertex globe renderer.

Shallow embedding of the repository's algorithmic core:
* the two GLSL vertex shaders (terrain classification, fractal noise,
  pointer-bulge displacement with distance falloff),
* the JavaScript driver classes (`LODManager`, `PerformanceMonitor`),
  the hover/raycast handler and the initialization fallback path.

GLSL `float` arithmetic is embedded as exact arithmetic: rational-valued
code is embedded over `ℚ` (computable), code using the transcendental
built-ins `sin`, `cos`, `sqrt` is embedded over `ℝ`.  Decimal literals of
the source are written as the equal fractions (0.5 = 1/2, 0.3 = 3/10, ...).
Textures and the rendering library (raycasting, world-to-local conversion)
are external services and are passed as function parameters.
-/

/-- A 2-component vector (GLSL `vec2`), used for texture coordinates. -/
structure Vec2 (α : Type) where
  u : α
  v : α

/-- A 3-component vector (GLSL `vec3`). -/
structure Vec3 (α : Type) where
  x : α
  y : α
  z : α

/-- Componentwise addition (GLSL `+` on `vec3`). -/
def Vec3.add {α : Type} [Add α] (a b : Vec3 α) : Vec3 α :=
  ⟨a.x + b.x, a.y + b.y, a.z + b.z⟩

/-- Componentwise subtraction (GLSL `-` on `vec3`). -/
def Vec3.sub {α : Type} [Sub α] (a b : Vec3 α) : Vec3 α :=
  ⟨a.x - b.x, a.y - b.y, a.z - b.z⟩

/-- Scalar multiplication (GLSL `float * vec3`). -/
def Vec3.scale {α : Type} [Mul α] (c : α) (a : Vec3 α) : Vec3 α :=
  ⟨c * a.x, c * a.y, c * a.z⟩

/-- GLSL `dot` on `vec3`. -/
def Vec3.dot {α : Type} [Add α] [Mul α] (a b : Vec3 α) : α :=
  a.x * b.x + a.y * b.y + a.z * b.z

/-- GLSL `length` on `vec3` (Euclidean norm). -/
noncomputable def Vec3.length (a : Vec3 ℝ) : ℝ :=
  Real.sqrt (Vec3.dot a a)

/-- GLSL `normalize` on `vec3`: the vector divided by its length. -/
noncomputable def Vec3.normalize (a : Vec3 ℝ) : Vec3 ℝ :=
  ⟨a.x / Vec3.length a, a.y / Vec3.length a, a.z / Vec3.length a⟩

namespace Glsl

/-- GLSL `floor` on `float`, embedded over `ℝ`. -/
noncomputable def floorR (x : ℝ) : ℝ := (⌊x⌋ : ℤ)

/-- GLSL `fract(x) = x - floor(x)`. -/
noncomputable def fract (x : ℝ) : ℝ := x - floorR x

/-- GLSL `mix(x, y, a) = x*(1-a) + y*a`. -/
def mix (x y a : ℝ) : ℝ := x * (1 - a) + y * a

/-- GLSL `step(edge, x)`: `0.0` if `x < edge`, else `1.0`. -/
noncomputable def step (edge x : ℝ) : ℝ := if x < edge then 0 else 1

/-- GLSL `mod(x, y) = x - y * floor(x/y)`. -/
noncomputable def modF (x y : ℝ) : ℝ := x - y * floorR (x / y)

theorem fract_eq_intFract (x : ℝ) : fract x = Int.fract x := rfl

theorem fract_nonneg (x : ℝ) : 0 ≤ fract x := by
  rw [fract_eq_intFract]; exact Int.fract_nonneg x

theorem fract_lt_one (x : ℝ) : fract x < 1 := by
  rw [fract_eq_intFract]; exact Int.fract_lt_one x

theorem abs_fract_le_one (x : ℝ) : |fract x| ≤ 1 := by
  rw [abs_le]
  constructor
  · linarith [fract_nonneg x]
  · linarith [fract_lt_one x]

theorem abs_fract_sub_one_le_one (x : ℝ) : |fract x - 1| ≤ 1 := by
  rw [abs_le]
  constructor
  · linarith [fract_nonneg x]
  · linarith [fract_lt_one x]

theorem mix_abs_le {x y a M : ℝ} (hx : |x| ≤ M) (hy : |y| ≤ M)
    (ha0 : 0 ≤ a) (ha1 : a ≤ 1) : |mix x y a| ≤ M := by
  rw [abs_le] at hx hy ⊢
  unfold mix
  constructor <;> nlinarith [hx.1, hx.2, hy.1, hy.2]

end Glsl

/-!
## Level-of-detail manager

`LODManager` from `src/src/utils/test-runner.js` (lines 225–266): a fixed
table of `(distance, vertices)` bands, a `calculateOptimalLOD` scan, and a
hysteresis-gated `update`.  Vertex-grid resolutions are integers; camera
distances are embedded over `ℚ`.
-/

/-- One entry of `this.lodLevels`: `{ distance, vertices, label }` (the
label is display-only and omitted). -/
structure LODLevel where
  distance : ℚ
  vertices : ℤ
deriving DecidableEq

/-- The fixed LOD table from the `LODManager` constructor. -/
def lodLevels : List LODLevel :=
  [⟨15, 100⟩, ⟨10, 150⟩, ⟨7, 200⟩, ⟨0, 300⟩]

/-- The `for (let level of this.lodLevels)` scan inside
`calculateOptimalLOD`: return the vertices of the first level with
`cameraDistance >= level.distance`; fall through to the default. -/
def firstMatch : List LODLevel → ℚ → ℤ
  | [], _ => 300
  | l :: ls, d => if l.distance ≤ d then l.vertices else firstMatch ls d

/-- `LODManager.calculateOptimalLOD(cameraDistance)`. -/
def calculateOptimalLOD (cameraDistance : ℚ) : ℤ :=
  firstMatch lodLevels cameraDistance

/-- The mutable fields of `LODManager` touched by `update` and the
geometry-swap block of `animate`. -/
structure LODManager where
  currentLOD : ℤ
  targetLOD : ℤ
  needsGeometryUpdate : Bool
deriving DecidableEq

/-- `LODManager.update(camera, earthPosition)`, with the camera distance
already computed: recompute `targetLOD` and commit it (setting
`needsGeometryUpdate`) only when it differs from `currentLOD` by at least
50. -/
def LODManager.update (m : LODManager) (cameraDistance : ℚ) : LODManager :=
  let target := calculateOptimalLOD cameraDistance
  if 50 ≤ |target - m.currentLOD| then
    { currentLOD := target, targetLOD := target, needsGeometryUpdate := true }
  else
    { m with targetLOD := target }

/-- The geometry-swap block of `animate` (test-runner.js lines 849–853)
together with `createGeometry` (which clears `needsGeometryUpdate`):
returns the new state and whether a regeneration happened.  Assumes
`earthMesh` exists. -/
def maybeRegenerate (m : LODManager) : LODManager × Bool :=
  if m.needsGeometryUpdate then ({ m with needsGeometryUpdate := false }, true)
  else (m, false)

/-- One pass of the LOD portion of `animate`: `lodManager.update` followed
immediately (same frame) by the geometry-swap block. -/
def animateFrame (m : LODManager) (cameraDistance : ℚ) : LODManager × Bool :=
  maybeRegenerate (m.update cameraDistance)

/-- C4: for camera distance `d ≥ 0`, `calculateOptimalLOD` scans the fixed
distance-descending table `{(15,100),(10,150),(7,200),(0,300)}` and returns
the resolution of the first band whose minimum distance is `≤ d`, returning
the maximum resolution 300 when no band matches; in the table resolutions
are strictly increasing as band distance decreases. -/
theorem calculateOptimalLOD_spec (d : ℚ) (hd : 0 ≤ d) :
    (calculateOptimalLOD d =
      if 15 ≤ d then 100 else if 10 ≤ d then 150 else if 7 ≤ d then 200 else 300) ∧
    (lodLevels.map (fun l => (l.distance, l.vertices)) =
      [(15, 100), (10, 150), (7, 200), (0, 300)]) ∧
    (lodLevels.Pairwise fun a b => b.distance < a.distance ∧ a.vertices < b.vertices) ∧
    (∀ d' : ℚ, (∀ l ∈ lodLevels, ¬ l.distance ≤ d') → calculateOptimalLOD d' = 300) := by
  refine ⟨?_, by decide, by decide, ?_⟩
  · unfold calculateOptimalLOD firstMatch lodLevels
    simp only [firstMatch]
    split_ifs <;> rfl
  · intro d' h
    have h15 := h ⟨15, 100⟩ (by simp [lodLevels])
    have h10 := h ⟨10, 150⟩ (by simp [lodLevels])
    have h7 := h ⟨7, 200⟩ (by simp [lodLevels])
    have h0 := h ⟨0, 300⟩ (by simp [lodLevels])
    simp only [calculateOptimalLOD, lodLevels, firstMatch] at *
    rw [if_neg h15, if_neg h10, if_neg h7, if_neg h0]

/-- Witness for C4 at the concrete distance 8. -/
theorem calculateOptimalLOD_spec_witness :
    calculateOptimalLOD 8 = if (15:ℚ) ≤ 8 then 100 else if (10:ℚ) ≤ 8 then 150
      else if (7:ℚ) ≤ 8 then 200 else 300 :=
  (calculateOptimalLOD_spec 8 (by decide)).1

/-- Counterexample to C5 as stated: with `currentLOD = 300` and camera
distance 8 (target 200, difference 100 ≥ 50) the geometry regeneration
happens in the same `animate` frame as the committing `update`; the
following frame performs no regeneration at all. -/
theorem lodUpdate_regen_same_frame :
    (animateFrame ⟨300, 300, false⟩ 8).2 = true ∧
    (animateFrame (animateFrame ⟨300, 300, false⟩ 8).1 8).2 = false := by
  decide

/-- C5 (amended): `LODManager.update` leaves `currentLOD` unchanged and
requests no geometry regeneration whenever `|targetLOD - currentLOD| < 50`;
whenever `|targetLOD - currentLOD| ≥ 50` it sets `currentLOD := targetLOD`
and exactly one geometry regeneration occurs — in that same frame,
immediately after the update inside the same `animate` pass — and the
following frame performs none. -/
theorem lodManager_update_hysteresis (m : LODManager) (d : ℚ) :
    (|calculateOptimalLOD d - m.currentLOD| < 50 →
      (m.update d).currentLOD = m.currentLOD ∧
      (m.update d).needsGeometryUpdate = m.needsGeometryUpdate) ∧
    (50 ≤ |calculateOptimalLOD d - m.currentLOD| →
      (m.update d).currentLOD = calculateOptimalLOD d ∧
      (animateFrame m d).2 = true ∧
      (animateFrame (animateFrame m d).1 d).2 = false) := by
  constructor
  · intro h
    have hn : ¬ 50 ≤ |calculateOptimalLOD d - m.currentLOD| := not_le.mpr h
    simp [LODManager.update, hn]
  · intro h
    have h1 : m.update d =
        { currentLOD := calculateOptimalLOD d, targetLOD := calculateOptimalLOD d,
          needsGeometryUpdate := true } := by
      simp [LODManager.update, h]
    refine ⟨by rw [h1], ?_, ?_⟩
    · simp [animateFrame, h1, maybeRegenerate]
    · have h2 : (animateFrame m d).1 =
          { currentLOD := calculateOptimalLOD d, targetLOD := calculateOptimalLOD d,
            needsGeometryUpdate := false } := by
        simp [animateFrame, h1, maybeRegenerate]
      rw [h2]
      simp [animateFrame, LODManager.update, maybeRegenerate]

/-- Witness for C5 (amended) at `currentLOD = 300`, distance 8. -/
theorem lodManager_update_hysteresis_witness :
    ((⟨300, 300, false⟩ : LODManager).update 8).currentLOD = calculateOptimalLOD 8 ∧
    (animateFrame ⟨300, 300, false⟩ 8).2 = true :=
  let h := (lodManager_update_hysteresis ⟨300, 300, false⟩ 8).2 (by decide)
  ⟨h.1, h.2.1⟩

/-!
## Module state of the driver script: performance monitor and hover state

`PerformanceMonitor` (test-runner.js lines 162–220), `updateHoverPosition`
(lines 539–610) and `setupHoverTracking` (lines 613–634) mutate the
module-level state below.  `performance.now()` timestamps are embedded as
integer milliseconds (`ℤ`).  `earthMesh` and its shader material are
assumed present (the claims presuppose a mesh to raycast against / a
uniform to write).  The `setTimeout(() => { this.isOptimizing = false; },
3000)` in `triggerOptimization` is modelled by recording the expiry time
`optimizeClearTime`; the timer callback is run by `processTimers` before
the next update whose timestamp has passed the expiry, matching the
event-loop ordering. -/
structure ScriptState where
  frameCount : ℕ
  lastFPSUpdate : ℤ
  currentFPS : ℕ
  isOptimizing : Bool
  optimizeClearTime : ℤ
  uTerrainDiversity : ℚ
  targetMouse : Vec3 ℚ
  targetBulgeStrength : ℚ
  isMouseOverEarth : Bool
  lastRaycastTime : ℤ
  optimizationCount : ℕ

/-- `PerformanceMonitor.triggerOptimization()`: set the optimizing flag
(with its 3000 ms reset timer), multiply `uTerrainDiversity` by 0.7.
`optimizationCount` counts the calls (for the "exactly one" properties). -/
def triggerOptimization (s : ScriptState) (now : ℤ) : ScriptState :=
  { s with
    isOptimizing := true
    optimizeClearTime := now + 3000
    uTerrainDiversity := s.uTerrainDiversity * (7/10)
    optimizationCount := s.optimizationCount + 1 }

/-- Run the pending `setTimeout` callback resetting `isOptimizing` when its
3-second delay has elapsed. -/
def processTimers (s : ScriptState) (now : ℤ) : ScriptState :=
  if s.isOptimizing ∧ s.optimizeClearTime ≤ now then { s with isOptimizing := false }
  else s

/-- `PerformanceMonitor.update()` at timestamp `now`: count the frame; at a
window boundary (`now - lastFPSUpdate >= 1000`) publish the count as
`currentFPS`, reset the counter, and auto-optimize if `currentFPS < 45`
and not already optimizing. -/
def pmUpdate (s : ScriptState) (now : ℤ) : ScriptState :=
  let s1 := { s with frameCount := s.frameCount + 1 }
  if 1000 ≤ now - s1.lastFPSUpdate then
    let s2 := { s1 with currentFPS := s1.frameCount, frameCount := 0, lastFPSUpdate := now }
    if s2.currentFPS < 45 ∧ s2.isOptimizing = false then triggerOptimization s2 now
    else s2
  else s1

/-- One frame tick as seen by the monitor: pending timers fire, then
`performanceMonitor.update()` runs. -/
def pmTick (s : ScriptState) (now : ℤ) : ScriptState :=
  pmUpdate (processTimers s now) now

/-- Feed a sequence of frame timestamps to the monitor. -/
def runTicks (s : ScriptState) (times : List ℤ) : ScriptState :=
  times.foldl pmTick s

/-- The module state right after `createEarthMesh`: 60 fps seed, counters
zeroed, `uTerrainDiversity` at its initial value 1.0, bulge at rest. -/
def initialScriptState : ScriptState :=
  { frameCount := 0
    lastFPSUpdate := 0
    currentFPS := 60
    isOptimizing := false
    optimizeClearTime := 0
    uTerrainDiversity := 1
    targetMouse := ⟨0, 0, 0⟩
    targetBulgeStrength := 0
    isMouseOverEarth := false
    lastRaycastTime := 0
    optimizationCount := 0 }

/-- A one-second window holding exactly 45 frame ticks: 44 ticks strictly
inside the window and the 45th at the 1000 ms boundary. -/
def ticks45 : List ℤ :=
  ((List.range 44).map fun i => 22 * ((i : ℤ) + 1)) ++ [1000]

/-- A one-second window holding exactly 44 frame ticks. -/
def ticks44 : List ℤ :=
  ((List.range 43).map fun i => 22 * ((i : ℤ) + 1)) ++ [1000]

/-- A second one-second window of 44 ticks, ending at 2000 ms — inside the
3-second cooldown started at 1000 ms. -/
def ticks44second : List ℤ :=
  ((List.range 43).map fun i => 1000 + 22 * ((i : ℤ) + 1)) ++ [2000]

set_option maxRecDepth 100000

/-- Counterexample to C6 as stated: after a one-second window with exactly
45 frame ticks the monitor reports 45 fps but triggers NO mitigation — the
threshold test `currentFPS < 45` is strict — so the terrain-diversity
multiplier keeps its value 1 instead of being reduced to 0.7. -/
theorem perfMonitor_45fps_no_mitigation :
    (runTicks initialScriptState ticks45).currentFPS = 45 ∧
    (runTicks initialScriptState ticks45).optimizationCount = 0 ∧
    (runTicks initialScriptState ticks45).uTerrainDiversity = 1 ∧
    ¬ ((runTicks initialScriptState ticks45).optimizationCount = 1 ∧
       (runTicks initialScriptState ticks45).uTerrainDiversity = 7/10) := by
  refine ⟨by decide, by decide, rfl, ?_⟩
  rintro ⟨h, -⟩
  exact absurd h (by decide)

/-- C6 (amended): a one-second window of exactly 45 frame ticks reports an
FPS of 45 and triggers no mitigation (the threshold is strictly below 45);
a window of 44 ticks reports 44 and, with no mitigation in cooldown,
triggers exactly one mitigation multiplying the terrain-diversity
multiplier by 0.7; a second breach within the 3-second cooldown triggers
no additional mitigation. -/
theorem perfMonitor_threshold_and_cooldown :
    (runTicks initialScriptState ticks45).currentFPS = 45 ∧
    (runTicks initialScriptState ticks45).optimizationCount = 0 ∧
    (runTicks initialScriptState ticks45).uTerrainDiversity = 1 ∧
    (runTicks initialScriptState ticks44).currentFPS = 44 ∧
    (runTicks initialScriptState ticks44).optimizationCount = 1 ∧
    (runTicks initialScriptState ticks44).uTerrainDiversity = 7/10 ∧
    (runTicks initialScriptState ticks44).isOptimizing = true ∧
    (runTicks (runTicks initialScriptState ticks44) ticks44second).currentFPS = 44 ∧
    (runTicks (runTicks initialScriptState ticks44) ticks44second).optimizationCount = 1 ∧
    (runTicks (runTicks initialScriptState ticks44) ticks44second).uTerrainDiversity = 7/10 := by
  refine ⟨by decide, by decide, rfl, by decide, by decide, ?_, by decide, by decide, by decide, ?_⟩
  · have h : (runTicks initialScriptState ticks44).uTerrainDiversity = 1 * (7/10) := rfl
    rw [h]; norm_num
  · have h : (runTicks (runTicks initialScriptState ticks44) ticks44second).uTerrainDiversity
        = 1 * (7/10) := rfl
    rw [h]; norm_num

/-- `updateHoverPosition(clientX, clientY)` (test-runner.js lines 539–610).
The raycast against `earthMesh` is a rendering-library call; its outcome is
passed as `hit` — `some p` with the world-space intersection point when the
cursor ray intersects the mesh, `none` otherwise.  `worldToLocal` models
`group.worldToLocal`.  The NDC computation and the coordinate DOM displays
have no effect on the modelled state and are omitted. -/
def updateHoverPosition (worldToLocal : Vec3 ℚ → Vec3 ℚ) (s : ScriptState)
    (currentTime : ℤ) (hit : Option (Vec3 ℚ)) : ScriptState :=
  if currentTime - s.lastRaycastTime < 16 then s
  else
    let s1 := { s with lastRaycastTime := currentTime }
    match hit with
    | some intersectionPoint =>
        { s1 with
          targetMouse := worldToLocal intersectionPoint
          targetBulgeStrength := 1
          isMouseOverEarth := true
          uTerrainDiversity := 3/2 }
    | none =>
        { s1 with
          targetBulgeStrength := 0
          isMouseOverEarth := false
          uTerrainDiversity := 1 }

/-- The `canvas` `mouseleave` listener from `setupHoverTracking`. -/
def onMouseLeave (s : ScriptState) : ScriptState :=
  { s with targetBulgeStrength := 0, isMouseOverEarth := false }

/-- C7: every hover update that survives the 16 ms raycast throttle sets
the target bulge strength to 1.0 and the target pointer position to the
local-space intersection point when the cursor ray hits the earth mesh,
and sets the target bulge strength to 0.0 when it does not; every
pointer-leave event sets the target bulge strength to 0.0. -/
theorem updateHoverPosition_spec (worldToLocal : Vec3 ℚ → Vec3 ℚ)
    (s s' : ScriptState) (t : ℤ) (hit : Option (Vec3 ℚ))
    (hthr : ¬ (t - s.lastRaycastTime < 16)) :
    (∀ p, hit = some p →
      (updateHoverPosition worldToLocal s t hit).targetBulgeStrength = 1 ∧
      (updateHoverPosition worldToLocal s t hit).targetMouse = worldToLocal p) ∧
    (hit = none →
      (updateHoverPosition worldToLocal s t hit).targetBulgeStrength = 0) ∧
    (onMouseLeave s').targetBulgeStrength = 0 := by
  refine ⟨?_, ?_, rfl⟩
  · rintro p rfl
    simp [updateHoverPosition, hthr]
  · rintro rfl
    simp [updateHoverPosition, hthr]

/-- Witness for C7: a non-throttled hover hit at time 100 on a state with
`lastRaycastTime = 0`. -/
theorem updateHoverPosition_spec_witness :
    (updateHoverPosition id initialScriptState 100 (some ⟨1, 0, 0⟩)).targetBulgeStrength = 1 ∧
    (updateHoverPosition id initialScriptState 100 (some ⟨1, 0, 0⟩)).targetMouse = id ⟨1, 0, 0⟩ :=
  ((updateHoverPosition_spec id initialScriptState initialScriptState 100 (some ⟨1, 0, 0⟩)
    (by decide)).1) ⟨1, 0, 0⟩ rfl

/-- C10: every non-throttled hover update overwrites `uTerrainDiversity` —
to 1.5 on an earth hit, to 1.0 on a miss — regardless of its previous
value; in particular a reduction applied by the performance monitor's
`triggerOptimization` (×0.7) is discarded by the next hover update. -/
theorem hover_overwrites_diversity (worldToLocal : Vec3 ℚ → Vec3 ℚ)
    (s : ScriptState) (t tOpt : ℤ) (p : Vec3 ℚ)
    (hthr : ¬ (t - s.lastRaycastTime < 16)) :
    (updateHoverPosition worldToLocal s t (some p)).uTerrainDiversity = 3/2 ∧
    (updateHoverPosition worldToLocal s t none).uTerrainDiversity = 1 ∧
    (updateHoverPosition worldToLocal (triggerOptimization s tOpt) t
      (some p)).uTerrainDiversity = 3/2 ∧
    (updateHoverPosition worldToLocal (triggerOptimization s tOpt) t
      none).uTerrainDiversity = 1 := by
  have hthr2 : ¬ (t - (triggerOptimization s tOpt).lastRaycastTime < 16) := hthr
  refine ⟨?_, ?_, ?_, ?_⟩ <;>
    simp [updateHoverPosition, triggerOptimization, hthr, hthr2]

/-- Witness for C10: the diversity reduced to 0.7 by an optimization at
time 0 is overwritten to 1.5 by a hover hit at time 100. -/
theorem hover_overwrites_diversity_witness :
    (updateHoverPosition id (triggerOptimization initialScriptState 0) 100
      (some ⟨1, 0, 0⟩)).uTerrainDiversity = 3/2 :=
  (hover_overwrites_diversity id initialScriptState 100 0 ⟨1, 0, 0⟩ (by decide)).2.2.1

/-!
## Initialization fallback

`init` (test-runner.js lines 637–691) wraps resource acquisition in
`try/catch`; `createBasicEarthMesh` (lines 801–815) is the `catch`
fallback.  Texture loading is an external asynchronous service: its result
is passed in as an `Except`.  The model records the part of the
constructed mesh the claim is about: the sphere-geometry resolution and
the material (with or without procedural shading uniforms).
-/

/-- Which of the four required textures failed to load. -/
inductive TextureError where
  | starTexture
  | colorMap
  | elevationMap
  | alphaMap
deriving DecidableEq

/-- Opaque handles for the four loaded textures. -/
structure LoadedTextures where
  starTexture : ℕ
  colorMap : ℕ
  elevationMap : ℕ
  alphaMap : ℕ

/-- The procedural shading uniforms installed by `createEarthMesh`
(test-runner.js lines 724–762; the representative subset the claims are
about), initial values as in the source. -/
structure ShaderUniforms where
  uTime : ℚ
  uSize : ℚ
  uBulgeStrength : ℚ
  uBulgeRadius : ℚ
  uBulgeIntensity : ℚ
  uWaterEffect : ℚ
  uTerrainDiversity : ℚ
  uTerrainAnimation : ℚ
  uSnowLine : ℚ
  uDetailLevel : ℚ
  uLODLevel : ℚ

/-- A mesh material: either the enhanced `THREE.ShaderMaterial` carrying
the procedural uniforms, or the fallback `THREE.PointsMaterial` (a flat
color and point size — no uniforms). -/
inductive Material where
  | shaderMaterial (uniforms : ShaderUniforms)
  | pointsMaterial (color : ℕ) (size : ℚ)

/-- Whether a material carries procedural shading uniforms. -/
def Material.hasProceduralUniforms : Material → Bool
  | .shaderMaterial _ => true
  | .pointsMaterial _ _ => false

/-- The observable result of initialization: the earth mesh's
sphere-geometry resolution and its material. -/
structure EarthMesh where
  widthSegments : ℕ
  heightSegments : ℕ
  material : Material

/-- `createEarthMesh()`: geometry from `lodManager.createGeometry()` at the
current LOD, enhanced shader material with the source's initial uniform
values. -/
def createEarthMesh (currentLOD : ℕ) : EarthMesh :=
  { widthSegments := currentLOD
    heightSegments := currentLOD
    material := .shaderMaterial
      { uTime := 0
        uSize := 6/5
        uBulgeStrength := 0
        uBulgeRadius := 9/10
        uBulgeIntensity := 3/10
        uWaterEffect := 3/10
        uTerrainDiversity := 1
        uTerrainAnimation := 1
        uSnowLine := 7/10
        uDetailLevel := 1
        uLODLevel := 1 } }

/-- `createBasicEarthMesh()`: `SphereGeometry(2.75, 200, 200)` with a plain
`PointsMaterial({ color: 0x4a90e2, size: 1.0 })`. -/
def createBasicEarthMesh : EarthMesh :=
  { widthSegments := 200
    heightSegments := 200
    material := .pointsMaterial 0x4a90e2 1 }

/-- The `try/catch` of `init()` around texture loading and mesh creation:
on success the enhanced mesh is built at the current LOD; any texture
failure is caught and answered with the basic fallback mesh.  The function
is total — no exception escapes the initialization boundary. -/
def initRenderLoop (currentLOD : ℕ)
    (loadResult : Except TextureError LoadedTextures) : EarthMesh :=
  match loadResult with
  | .ok _ => createEarthMesh currentLOD
  | .error _ => createBasicEarthMesh

/-- C9: whatever texture fails to load, initialization returns (it never
rethrows — `initRenderLoop` is total) the degraded fallback mesh: a
200×200 sphere — lower resolution than the enhanced mesh built at the
initial LOD of 300 — whose material carries no procedural shading
uniforms. -/
theorem initRenderLoop_texture_failure_fallback (e : TextureError) (lod : ℕ)
    (t : LoadedTextures) :
    initRenderLoop lod (.error e) = createBasicEarthMesh ∧
    (initRenderLoop lod (.error e)).widthSegments = 200 ∧
    (initRenderLoop lod (.error e)).heightSegments = 200 ∧
    (initRenderLoop lod (.error e)).material.hasProceduralUniforms = false ∧
    (initRenderLoop lod (.error e)).widthSegments <
      (initRenderLoop 300 (.ok t)).widthSegments ∧
    (initRenderLoop 300 (.ok t)).material.hasProceduralUniforms = true := by
  exact ⟨rfl, rfl, rfl, rfl, by simp [initRenderLoop, createBasicEarthMesh, createEarthMesh], rfl⟩

/-- Witness for C9 at a concrete failing texture (the alpha map). -/
theorem initRenderLoop_texture_failure_fallback_witness :
    initRenderLoop 300 (.error TextureError.alphaMap) = createBasicEarthMesh ∧
    (initRenderLoop 300 (.error TextureError.alphaMap)).material.hasProceduralUniforms = false :=
  let h := initRenderLoop_texture_failure_fallback TextureError.alphaMap 300 ⟨0, 0, 0, 0⟩
  ⟨h.1, h.2.2.2.1⟩

/-!
## Bulge falloff

Two versions exist in the repository: the basic vertex shader
(`src/unnamed/part_000`, lines 101–109) uses a cubic falloff, the enhanced
vertex shader (`src/src/core/shaders/fragment.glsl`, lines 203–207) a
quadratic one.  Both are rational functions of `distance` and `radius`;
they are embedded polymorphically over a linear ordered field so they can
be used at `ℚ` (exact, computable) and at `ℝ` (inside the bulge
displacement, whose distance input comes from a square root).
-/

namespace BasicShader

/-- `smoothFalloff` from the basic vertex shader: 0 at and beyond the
radius, else the cube of `1 - distance/radius`. -/
def smoothFalloff {α : Type} [LinearOrderedField α] (distance radius : α) : α :=
  if radius ≤ distance then 0
  else
    let normalizedDist := distance / radius
    let falloff := 1 - normalizedDist
    falloff * falloff * falloff

end BasicShader

namespace EnhancedShader

/-- `smoothFalloff` from the enhanced vertex shader: 0 at and beyond the
radius, else the square of `1 - distance/radius`. -/
def smoothFalloff {α : Type} [LinearOrderedField α] (distance radius : α) : α :=
  if radius ≤ distance then 0
  else
    let normalizedDist := distance / radius
    (1 - normalizedDist) * (1 - normalizedDist)

end EnhancedShader

theorem basic_smoothFalloff_nonneg {α : Type} [LinearOrderedField α]
    (d r : α) (hd : 0 ≤ d) : 0 ≤ BasicShader.smoothFalloff d r := by
  unfold BasicShader.smoothFalloff
  split_ifs with h
  · exact le_refl 0
  · push_neg at h
    have hr : 0 < r := lt_of_le_of_lt hd h
    have h1 : d / r < 1 := (div_lt_one hr).mpr h
    have h0 : 0 ≤ 1 - d / r := by linarith
    nlinarith

theorem enhanced_smoothFalloff_nonneg {α : Type} [LinearOrderedField α]
    (d r : α) : 0 ≤ EnhancedShader.smoothFalloff d r := by
  unfold EnhancedShader.smoothFalloff
  split_ifs with h
  · exact le_refl 0
  · exact mul_self_nonneg _

/-- C2: for every radius `r > 0` both falloff functions return exactly 0
for `d ≥ r`; on `[0, r)` they equal `((r-d)/r)^3` (basic shader) resp.
`((r-d)/r)^2` (enhanced shader); they equal 1.0 at `d = 0`; they are
monotonically non-increasing in the distance; and they tend to 0 as the
distance approaches the radius from below. -/
theorem smoothFalloff_spec (r : ℚ) (hr : 0 < r) :
    (∀ d : ℚ, r ≤ d →
      BasicShader.smoothFalloff d r = 0 ∧ EnhancedShader.smoothFalloff d r = 0) ∧
    (∀ d : ℚ, 0 ≤ d → d < r →
      BasicShader.smoothFalloff d r = ((r - d) / r) ^ 3 ∧
      EnhancedShader.smoothFalloff d r = ((r - d) / r) ^ 2) ∧
    (BasicShader.smoothFalloff 0 r = 1 ∧ EnhancedShader.smoothFalloff 0 r = 1) ∧
    (∀ d1 d2 : ℚ, 0 ≤ d1 → d1 ≤ d2 →
      BasicShader.smoothFalloff d2 r ≤ BasicShader.smoothFalloff d1 r ∧
      EnhancedShader.smoothFalloff d2 r ≤ EnhancedShader.smoothFalloff d1 r) ∧
    (∀ ε : ℚ, 0 < ε → ∃ δ : ℚ, 0 < δ ∧ ∀ d : ℚ, r - δ < d → d < r →
      BasicShader.smoothFalloff d r < ε ∧ EnhancedShader.smoothFalloff d r < ε) := by
  have hne : r ≠ 0 := ne_of_gt hr
  refine ⟨?_, ?_, ?_, ?_, ?_⟩
  · intro d hd
    constructor <;> simp [BasicShader.smoothFalloff, EnhancedShader.smoothFalloff, hd]
  · intro d _ hdr
    have h : ¬ r ≤ d := not_le.mpr hdr
    constructor
    · simp only [BasicShader.smoothFalloff, if_neg h]
      field_simp
      ring
    · simp only [EnhancedShader.smoothFalloff, if_neg h]
      field_simp
      ring
  · have h : ¬ r ≤ (0:ℚ) := not_le.mpr hr
    constructor
    · simp [BasicShader.smoothFalloff, if_neg h, hne]
    · simp [EnhancedShader.smoothFalloff, if_neg h, hne]
  · intro d1 d2 h1 h12
    have hdiv : d1 / r ≤ d2 / r := by gcongr
    constructor
    · by_cases hb : r ≤ d1
      · have ha : r ≤ d2 := le_trans hb h12
        simp [BasicShader.smoothFalloff, ha, hb]
      · push_neg at hb
        by_cases ha : r ≤ d2
        · simp only [BasicShader.smoothFalloff, if_pos ha, if_neg (not_le.mpr hb)]
          have hlt : d1 / r < 1 := (div_lt_one hr).mpr hb
          have hpos : 0 < 1 - d1 / r := by linarith
          nlinarith [mul_pos (mul_pos hpos hpos) hpos]
        · push_neg at ha
          simp only [BasicShader.smoothFalloff, if_neg (not_le.mpr hb), if_neg (not_le.mpr ha)]
          have hlt2 : d2 / r < 1 := (div_lt_one hr).mpr ha
          have hpos2 : 0 < 1 - d2 / r := by linarith
          nlinarith [hdiv, hpos2, sq_nonneg (1 - d1 / r + (1 - d2 / r)),
            sq_nonneg (1 - d1 / r - (1 - d2 / r)), mul_pos hpos2 hpos2]
    · by_cases hb : r ≤ d1
      · have ha : r ≤ d2 := le_trans hb h12
        simp [EnhancedShader.smoothFalloff, ha, hb]
      · push_neg at hb
        by_cases ha : r ≤ d2
        · simp only [EnhancedShader.smoothFalloff, if_pos ha, if_neg (not_le.mpr hb)]
          exact mul_self_nonneg _
        · push_neg at ha
          simp only [EnhancedShader.smoothFalloff, if_neg (not_le.mpr hb), if_neg (not_le.mpr ha)]
          have hlt2 : d2 / r < 1 := (div_lt_one hr).mpr ha
          have hpos2 : 0 < 1 - d2 / r := by linarith
          nlinarith [hdiv, hpos2]
  · intro ε hε
    refine ⟨r * min 1 ε, by positivity, ?_⟩
    intro d hlo hhi
    have h : ¬ r ≤ d := not_le.mpr hhi
    have hm1 : min 1 ε ≤ 1 := min_le_left _ _
    have hm2 : min 1 ε ≤ ε := min_le_right _ _
    have ht0 : 0 < 1 - d / r := by
      have : d / r < 1 := (div_lt_one hr).mpr hhi
      linarith
    have ht1 : 1 - d / r < min 1 ε := by
      have hrd : r - d < r * min 1 ε := by linarith
      have hq := (div_lt_iff₀ hr).mpr (by linarith : r - d < min 1 ε * r)
      have heq : (r - d) / r = 1 - d / r := by field_simp
      linarith [heq ▸ hq]
    constructor
    · simp only [BasicShader.smoothFalloff, if_neg h]
      nlinarith [ht0, ht1, hm1, hm2]
    · simp only [EnhancedShader.smoothFalloff, if_neg h]
      nlinarith [ht0, ht1, hm1, hm2]
/-- Witness for C2 at radius 1: the zero-distance values are 1. -/
theorem smoothFalloff_spec_witness :
    BasicShader.smoothFalloff (0:ℚ) 1 = 1 ∧ EnhancedShader.smoothFalloff (0:ℚ) 1 = 1 :=
  (smoothFalloff_spec 1 (by decide)).2.2.1

/-!
## Enhanced shader: Perlin noise, fractal noise, terrain classification

From the enhanced vertex shader in `src/src/core/shaders/fragment.glsl`
(the same `perlinNoise`/`fractalNoise` pair also appears verbatim in
`enhancedFragment.glsl`).  `sin` makes these functions transcendental, so
they are embedded over `ℝ`.  Decimal literals of the source are written as
the equal fractions.
-/

namespace EnhancedShader

/-- `perlinNoise(vec3 pos)` (fragment.glsl lines 68–86): value-noise hash
of the eight surrounding lattice corners, trilinearly interpolated with the
smoothstep weights `u = f*f*(3-2f)`. -/
noncomputable def perlinNoise (pos : Vec3 ℝ) : ℝ :=
  let i : Vec3 ℝ := ⟨Glsl.floorR pos.x, Glsl.floorR pos.y, Glsl.floorR pos.z⟩
  let f : Vec3 ℝ := ⟨Glsl.fract pos.x, Glsl.fract pos.y, Glsl.fract pos.z⟩
  let u : Vec3 ℝ := ⟨f.x * f.x * (3 - 2 * f.x), f.y * f.y * (3 - 2 * f.y),
    f.z * f.z * (3 - 2 * f.z)⟩
  let a := Vec3.dot ⟨Glsl.floorR (i.x + 0), Glsl.floorR (i.y + 0), Glsl.floorR (i.z + 0)⟩ ⟨1, 57, 21⟩
  let b := Vec3.dot ⟨Glsl.floorR (i.x + 1), Glsl.floorR (i.y + 0), Glsl.floorR (i.z + 0)⟩ ⟨1, 57, 21⟩
  let c := Vec3.dot ⟨Glsl.floorR (i.x + 0), Glsl.floorR (i.y + 1), Glsl.floorR (i.z + 0)⟩ ⟨1, 57, 21⟩
  let d := Vec3.dot ⟨Glsl.floorR (i.x + 1), Glsl.floorR (i.y + 1), Glsl.floorR (i.z + 0)⟩ ⟨1, 57, 21⟩
  let e := Vec3.dot ⟨Glsl.floorR (i.x + 0), Glsl.floorR (i.y + 0), Glsl.floorR (i.z + 1)⟩ ⟨1, 57, 21⟩
  let f1 := Vec3.dot ⟨Glsl.floorR (i.x + 1), Glsl.floorR (i.y + 0), Glsl.floorR (i.z + 1)⟩ ⟨1, 57, 21⟩
  let g := Vec3.dot ⟨Glsl.floorR (i.x + 0), Glsl.floorR (i.y + 1), Glsl.floorR (i.z + 1)⟩ ⟨1, 57, 21⟩
  let h := Vec3.dot ⟨Glsl.floorR (i.x + 1), Glsl.floorR (i.y + 1), Glsl.floorR (i.z + 1)⟩ ⟨1, 57, 21⟩
  Glsl.mix
    (Glsl.mix
      (Glsl.mix (Glsl.fract (Real.sin a * 43758.5453)) (Glsl.fract (Real.sin b * 43758.5453)) u.x)
      (Glsl.mix (Glsl.fract (Real.sin c * 43758.5453)) (Glsl.fract (Real.sin d * 43758.5453)) u.x)
      u.y)
    (Glsl.mix
      (Glsl.mix (Glsl.fract (Real.sin e * 43758.5453)) (Glsl.fract (Real.sin f1 * 43758.5453)) u.x)
      (Glsl.mix (Glsl.fract (Real.sin g * 43758.5453)) (Glsl.fract (Real.sin h * 43758.5453)) u.x)
      u.y)
    u.z

/-- The `for` loop of `fractalNoise` (fragment.glsl lines 94–98), as a
structural recursion over the remaining octave count, carrying the
accumulator `noise` and the running `amp` and `freq`. -/
noncomputable def fractalNoiseLoop (pos : Vec3 ℝ) (amplitude : ℝ) :
    ℕ → ℝ → ℝ → ℝ → ℝ
  | 0, noise, _, _ => noise
  | n + 1, noise, amp, freq =>
      fractalNoiseLoop pos amplitude n (noise + perlinNoise (Vec3.scale freq pos) * amp)
        (amp * amplitude) (freq * 2)

/-- `fractalNoise(vec3 pos, float frequency, float amplitude, int octaves)`
(fragment.glsl lines 89–101). -/
noncomputable def fractalNoise (pos : Vec3 ℝ) (frequency amplitude : ℝ)
    (octaves : ℕ) : ℝ :=
  fractalNoiseLoop pos amplitude octaves 0 1 frequency

/-- The closed enumeration of the seven terrain categories, in the order of
the integer codes the shader returns (0 = Ocean … 6 = Canyon). -/
inductive TerrainType where
  | ocean
  | mountain
  | forest
  | plains
  | desert
  | tundra
  | canyon
deriving DecidableEq

/-- `classifyEnhancedTerrain(vec2 uv, vec3 worldPos, float elevation)`
(fragment.glsl lines 104–122).  `uAlphaMap` is the external alpha/land-mask
texture, passed as the sampling function of its red channel. -/
noncomputable def classifyEnhancedTerrain (uAlphaMap : Vec2 ℝ → ℝ)
    (uv : Vec2 ℝ) (worldPos : Vec3 ℝ) (elevation : ℝ) : TerrainType :=
  let alpha := uAlphaMap uv
  if alpha < 1/2 then .ocean
  else
    let noisePos := Vec3.scale 4 worldPos
    let terrainNoise := perlinNoise noisePos
    let elevationNoise := perlinNoise (Vec3.scale 8 worldPos)
    let terrainValue := elevation + terrainNoise * (3/10) + elevationNoise * (2/10)
    if terrainValue > 4/5 then .mountain
    else if terrainValue > 3/5 then .forest
    else if terrainValue > 2/5 then .plains
    else if terrainValue > 1/5 then .desert
    else if terrainValue > 0 then .tundra
    else .canyon

/-- The classification policy in the words of the specification: Ocean when
the land-mask value is below 0.5, otherwise bucket `terrainValue` by the
descending thresholds 0.8 / 0.6 / 0.4 / 0.2 / 0.0. -/
noncomputable def classifySpec (alpha terrainValue : ℝ) : TerrainType :=
  if alpha < 1/2 then .ocean
  else if terrainValue > 4/5 then .mountain
  else if terrainValue > 3/5 then .forest
  else if terrainValue > 2/5 then .plains
  else if terrainValue > 1/5 then .desert
  else if terrainValue > 0 then .tundra
  else .canyon

end EnhancedShader

/-- C1: the shader classifier agrees with the spec policy — Ocean whenever
the sampled land-mask value is below 0.5 regardless of elevation, otherwise
the bucketing of `terrainValue = elevation + 0.3*noise(4*position) +
0.2*noise(8*position)` by the descending thresholds — and every input
yields exactly one of the seven fixed categories. -/
theorem classifyEnhancedTerrain_spec (uAlphaMap : Vec2 ℝ → ℝ) (uv : Vec2 ℝ)
    (worldPos : Vec3 ℝ) (elevation : ℝ) :
    EnhancedShader.classifyEnhancedTerrain uAlphaMap uv worldPos elevation
      = EnhancedShader.classifySpec (uAlphaMap uv)
          (elevation + (3/10) * EnhancedShader.perlinNoise (Vec3.scale 4 worldPos)
            + (2/10) * EnhancedShader.perlinNoise (Vec3.scale 8 worldPos)) ∧
    (uAlphaMap uv < 1/2 →
      EnhancedShader.classifyEnhancedTerrain uAlphaMap uv worldPos elevation
        = EnhancedShader.TerrainType.ocean) ∧
    EnhancedShader.classifyEnhancedTerrain uAlphaMap uv worldPos elevation ∈
      [EnhancedShader.TerrainType.ocean, EnhancedShader.TerrainType.mountain,
       EnhancedShader.TerrainType.forest, EnhancedShader.TerrainType.plains,
       EnhancedShader.TerrainType.desert, EnhancedShader.TerrainType.tundra,
       EnhancedShader.TerrainType.canyon] := by
  have hv : elevation + EnhancedShader.perlinNoise (Vec3.scale 4 worldPos) * (3/10)
      + EnhancedShader.perlinNoise (Vec3.scale 8 worldPos) * (2/10)
      = elevation + (3/10) * EnhancedShader.perlinNoise (Vec3.scale 4 worldPos)
      + (2/10) * EnhancedShader.perlinNoise (Vec3.scale 8 worldPos) := by ring
  refine ⟨?_, ?_, ?_⟩
  · simp only [EnhancedShader.classifyEnhancedTerrain, EnhancedShader.classifySpec, hv]
  · intro h
    simp only [EnhancedShader.classifyEnhancedTerrain, if_pos h]
  · simp only [EnhancedShader.classifyEnhancedTerrain]
    split_ifs <;> simp

/-- Witness for C1: a constantly-zero land mask classifies as Ocean. -/
theorem classifyEnhancedTerrain_spec_witness :
    EnhancedShader.classifyEnhancedTerrain (fun _ => 0) ⟨0, 0⟩ ⟨0, 0, 0⟩ 0
      = EnhancedShader.TerrainType.ocean :=
  (classifyEnhancedTerrain_spec (fun _ => 0) ⟨0, 0⟩ ⟨0, 0, 0⟩ 0).2.1 one_half_pos

/-- C8: `fractalNoise(p, f, a, n)` is the sum of `n` octaves of the base
noise at doubling frequency and geometrically decaying amplitude:
`Σ_{i<n} perlinNoise(p * f * 2^i) * a^i`. -/
theorem fractalNoise_octave_sum (pos : Vec3 ℝ) (frequency amplitude : ℝ)
    (octaves : ℕ) :
    EnhancedShader.fractalNoise pos frequency amplitude octaves
      = ∑ i ∈ Finset.range octaves,
          EnhancedShader.perlinNoise (Vec3.scale (frequency * 2 ^ i) pos) * amplitude ^ i := by
  have key : ∀ (n : ℕ) (noise amp freq : ℝ),
      EnhancedShader.fractalNoiseLoop pos amplitude n noise amp freq
        = noise + ∑ i ∈ Finset.range n,
            EnhancedShader.perlinNoise (Vec3.scale (freq * 2 ^ i) pos) * (amp * amplitude ^ i) := by
    intro n
    induction n with
    | zero => intro noise amp freq; simp [EnhancedShader.fractalNoiseLoop]
    | succ m ih =>
        intro noise amp freq
        rw [EnhancedShader.fractalNoiseLoop, ih]
        rw [Finset.sum_range_succ']
        have h0 : EnhancedShader.perlinNoise (Vec3.scale (freq * 2 ^ 0) pos) * (amp * amplitude ^ 0)
            = EnhancedShader.perlinNoise (Vec3.scale freq pos) * amp := by
          norm_num
        rw [h0]
        have hsum : ∀ i ∈ Finset.range m,
            EnhancedShader.perlinNoise (Vec3.scale (freq * 2 * 2 ^ i) pos) * (amp * amplitude * amplitude ^ i)
              = EnhancedShader.perlinNoise (Vec3.scale (freq * 2 ^ (i + 1)) pos) * (amp * amplitude ^ (i + 1)) := by
          intro i _
          have hf : freq * 2 * 2 ^ i = freq * 2 ^ (i + 1) := by ring
          have ha : amp * amplitude * amplitude ^ i = amp * amplitude ^ (i + 1) := by ring
          rw [hf, ha]
        rw [Finset.sum_congr rfl hsum]
        ring
  rw [EnhancedShader.fractalNoise, key]
  simp

/-- Witness for C8: zero octaves sum to zero noise. -/
theorem fractalNoise_octave_sum_witness :
    EnhancedShader.fractalNoise ⟨0, 0, 0⟩ 1 1 0
      = ∑ i ∈ Finset.range 0,
          EnhancedShader.perlinNoise (Vec3.scale ((1:ℝ) * 2 ^ i) ⟨0, 0, 0⟩) * (1:ℝ) ^ i :=
  fractalNoise_octave_sum ⟨0, 0, 0⟩ 1 1 0

/-!
## Basic shader: periodic Perlin noise and bulge displacement

From the basic vertex shader `src/unnamed/part_000`.  The classical
`pnoise` implementation there is built from `mod289`, `permute`,
`taylorInvSqrt` and `fade`; all of its vector operations are componentwise
until the final dot products, so the embedding computes per lattice-corner:
`cornerHash` is one lane of `permute(permute(permute(ix) + iy) + iz)` and
`gradLane` is one lane of the gradient extraction (source lines 48–82).
-/

namespace BasicShader

/-- `mod289(x) = x - floor(x * (1/289)) * 289` (part_000 lines 12–18). -/
noncomputable def mod289 (x : ℝ) : ℝ := x - Glsl.floorR (x * (1/289)) * 289

/-- `permute(x) = mod289(((x*34)+10)*x)` (part_000 lines 20–22). -/
noncomputable def permute (x : ℝ) : ℝ := mod289 (((x * 34) + 10) * x)

/-- `taylorInvSqrt(r) = 1.79284291400159 - 0.85373472095314 * r`
(part_000 lines 24–26). -/
noncomputable def taylorInvSqrt (r : ℝ) : ℝ :=
  1.79284291400159 - 0.85373472095314 * r

/-- `fade(t) = t*t*t*(t*(t*6-15)+10)` (part_000 lines 28–30). -/
def fade (t : ℝ) : ℝ := t * t * t * (t * (t * 6 - 15) + 10)

/-- One lane of the corner hashing
`ixy0 = permute(permute(permute(ix) + iy) + iz0)` (part_000 lines 44–46). -/
noncomputable def cornerHash (xi yi zi : ℝ) : ℝ :=
  permute (permute (permute xi + yi) + zi)

/-- One lane of the gradient extraction (part_000 lines 48–54 for the z0
block, identically lines 56–62 for the z1 block): from the hash lane `h`,
`gx = ixy/7`, `gy = fract(floor(gx)/7) - 0.5`, `gx = fract(gx)`,
`gz = 0.5 - |gx| - |gy|`, `sz = step(gz, 0)`, then the `sz`-gated
adjustment of `gx` and `gy`. -/
noncomputable def gradLane (h : ℝ) : Vec3 ℝ :=
  let gx0 := h * (1/7)
  let gy0 := Glsl.fract (Glsl.floorR gx0 * (1/7)) - 1/2
  let gx1 := Glsl.fract gx0
  let gz0 := 1/2 - |gx1| - |gy0|
  let sz0 := Glsl.step gz0 0
  let gx2 := gx1 - sz0 * (Glsl.step 0 gx1 - 1/2)
  let gy2 := gy0 - sz0 * (Glsl.step 0 gy0 - 1/2)
  ⟨gx2, gy2, gz0⟩

/-- `pnoise(vec3 P, vec3 rep)` (part_000 lines 32–98): classical periodic
Perlin noise.  Corner gradients are the four lanes of the vectorized
source, written per-corner via `cornerHash`/`gradLane`; the per-corner
normalization `g *= taylorInvSqrt(dot(g,g))` (lines 73–82) is applied
inside each `n` term. -/
noncomputable def pnoise (P rep : Vec3 ℝ) : ℝ :=
  let Pi0p : Vec3 ℝ := ⟨Glsl.modF (Glsl.floorR P.x) rep.x, Glsl.modF (Glsl.floorR P.y) rep.y,
    Glsl.modF (Glsl.floorR P.z) rep.z⟩
  let Pi1p : Vec3 ℝ := ⟨Glsl.modF (Pi0p.x + 1) rep.x, Glsl.modF (Pi0p.y + 1) rep.y,
    Glsl.modF (Pi0p.z + 1) rep.z⟩
  let Pi0 : Vec3 ℝ := ⟨mod289 Pi0p.x, mod289 Pi0p.y, mod289 Pi0p.z⟩
  let Pi1 : Vec3 ℝ := ⟨mod289 Pi1p.x, mod289 Pi1p.y, mod289 Pi1p.z⟩
  let Pf0 : Vec3 ℝ := ⟨Glsl.fract P.x, Glsl.fract P.y, Glsl.fract P.z⟩
  let Pf1 : Vec3 ℝ := ⟨Pf0.x - 1, Pf0.y - 1, Pf0.z - 1⟩
  let g000 := gradLane (cornerHash Pi0.x Pi0.y Pi0.z)
  let g100 := gradLane (cornerHash Pi1.x Pi0.y Pi0.z)
  let g010 := gradLane (cornerHash Pi0.x Pi1.y Pi0.z)
  let g110 := gradLane (cornerHash Pi1.x Pi1.y Pi0.z)
  let g001 := gradLane (cornerHash Pi0.x Pi0.y Pi1.z)
  let g101 := gradLane (cornerHash Pi1.x Pi0.y Pi1.z)
  let g011 := gradLane (cornerHash Pi0.x Pi1.y Pi1.z)
  let g111 := gradLane (cornerHash Pi1.x Pi1.y Pi1.z)
  let n000 := Vec3.dot (Vec3.scale (taylorInvSqrt (Vec3.dot g000 g000)) g000) Pf0
  let n100 := Vec3.dot (Vec3.scale (taylorInvSqrt (Vec3.dot g100 g100)) g100)
    ⟨Pf1.x, Pf0.y, Pf0.z⟩
  let n010 := Vec3.dot (Vec3.scale (taylorInvSqrt (Vec3.dot g010 g010)) g010)
    ⟨Pf0.x, Pf1.y, Pf0.z⟩
  let n110 := Vec3.dot (Vec3.scale (taylorInvSqrt (Vec3.dot g110 g110)) g110)
    ⟨Pf1.x, Pf1.y, Pf0.z⟩
  let n001 := Vec3.dot (Vec3.scale (taylorInvSqrt (Vec3.dot g001 g001)) g001)
    ⟨Pf0.x, Pf0.y, Pf1.z⟩
  let n101 := Vec3.dot (Vec3.scale (taylorInvSqrt (Vec3.dot g101 g101)) g101)
    ⟨Pf1.x, Pf0.y, Pf1.z⟩
  let n011 := Vec3.dot (Vec3.scale (taylorInvSqrt (Vec3.dot g011 g011)) g011)
    ⟨Pf0.x, Pf1.y, Pf1.z⟩
  let n111 := Vec3.dot (Vec3.scale (taylorInvSqrt (Vec3.dot g111 g111)) g111) Pf1
  let fadeXyz : Vec3 ℝ := ⟨fade Pf0.x, fade Pf0.y, fade Pf0.z⟩
  let nz1 := Glsl.mix n000 n001 fadeXyz.z
  let nz2 := Glsl.mix n100 n101 fadeXyz.z
  let nz3 := Glsl.mix n010 n011 fadeXyz.z
  let nz4 := Glsl.mix n110 n111 fadeXyz.z
  let nyz1 := Glsl.mix nz1 nz3 fadeXyz.y
  let nyz2 := Glsl.mix nz2 nz4 fadeXyz.y
  let nxyz := Glsl.mix nyz1 nyz2 fadeXyz.x
  (11/5) * nxyz

end BasicShader

theorem gradLane_abs_le (h : ℝ) :
    |(BasicShader.gradLane h).x| ≤ 1 ∧ |(BasicShader.gradLane h).y| ≤ 1 ∧
    |(BasicShader.gradLane h).z| ≤ 1 := by
  have ht0 := Glsl.fract_nonneg (h * (1/7))
  have ht1 := Glsl.fract_lt_one (h * (1/7))
  have hs0 := Glsl.fract_nonneg (Glsl.floorR (h * (1/7)) * (1/7))
  have hs1 := Glsl.fract_lt_one (Glsl.floorR (h * (1/7)) * (1/7))
  have habt : |Glsl.fract (h * (1/7))| = Glsl.fract (h * (1/7)) := abs_of_nonneg ht0
  have habs : |Glsl.fract (Glsl.floorR (h * (1/7)) * (1/7)) - 1/2| ≤ 1/2 :=
    abs_le.mpr ⟨by linarith, by linarith⟩
  have habs0 : 0 ≤ |Glsl.fract (Glsl.floorR (h * (1/7)) * (1/7)) - 1/2| := abs_nonneg _
  refine ⟨?_, ?_, ?_⟩
  · simp only [BasicShader.gradLane, Glsl.step, habt]
    split_ifs <;> (rw [abs_le]; constructor <;> linarith)
  · simp only [BasicShader.gradLane, Glsl.step, habt]
    split_ifs <;> (rw [abs_le]; constructor <;> linarith)
  · simp only [BasicShader.gradLane, Glsl.step, habt]
    rw [abs_le]
    constructor <;> linarith

theorem taylorInvSqrt_abs_le {r : ℝ} (h0 : 0 ≤ r) (h3 : r ≤ 3) :
    |BasicShader.taylorInvSqrt r| ≤ 9/5 := by
  unfold BasicShader.taylorInvSqrt
  rw [abs_le]
  constructor <;> nlinarith

theorem fade_mem {t : ℝ} (h0 : 0 ≤ t) (h1 : t ≤ 1) :
    0 ≤ BasicShader.fade t ∧ BasicShader.fade t ≤ 1 := by
  unfold BasicShader.fade
  constructor
  · nlinarith [sq_nonneg (t - 5/4), pow_nonneg h0 3, sq_nonneg t, mul_nonneg (mul_nonneg h0 h0) h0]
  · nlinarith [mul_nonneg (mul_nonneg (sub_nonneg.mpr h1) (sub_nonneg.mpr h1)) (sub_nonneg.mpr h1),
      mul_nonneg (mul_nonneg (mul_nonneg (sub_nonneg.mpr h1) (sub_nonneg.mpr h1)) (sub_nonneg.mpr h1)) h0,
      mul_nonneg (mul_nonneg (mul_nonneg (mul_nonneg (sub_nonneg.mpr h1) (sub_nonneg.mpr h1)) (sub_nonneg.mpr h1)) h0) h0]

theorem nCorner_abs_le (h : ℝ) (p : Vec3 ℝ)
    (hpx : |p.x| ≤ 1) (hpy : |p.y| ≤ 1) (hpz : |p.z| ≤ 1) :
    |Vec3.dot (Vec3.scale
        (BasicShader.taylorInvSqrt (Vec3.dot (BasicShader.gradLane h) (BasicShader.gradLane h)))
        (BasicShader.gradLane h)) p| ≤ 27/5 := by
  obtain ⟨hx, hy, hz⟩ := gradLane_abs_le h
  set g := BasicShader.gradLane h with hg
  have hxx : g.x * g.x ≤ 1 := by nlinarith [abs_le.mp hx]
  have hyy : g.y * g.y ≤ 1 := by nlinarith [abs_le.mp hy]
  have hzz : g.z * g.z ≤ 1 := by nlinarith [abs_le.mp hz]
  have hr0 : 0 ≤ Vec3.dot g g := by
    unfold Vec3.dot
    nlinarith [mul_self_nonneg g.x, mul_self_nonneg g.y, mul_self_nonneg g.z]
  have hr3 : Vec3.dot g g ≤ 3 := by
    unfold Vec3.dot
    linarith
  have ht := taylorInvSqrt_abs_le hr0 hr3
  have hdot : Vec3.dot (Vec3.scale (BasicShader.taylorInvSqrt (Vec3.dot g g)) g) p
      = BasicShader.taylorInvSqrt (Vec3.dot g g) * Vec3.dot g p := by
    unfold Vec3.dot Vec3.scale
    ring
  rw [hdot, abs_mul]
  have hgp : |Vec3.dot g p| ≤ 3 := by
    have h1 : |g.x * p.x| ≤ 1 := by
      rw [abs_mul]
      exact mul_le_one₀ hx (abs_nonneg _) hpx
    have h2 : |g.y * p.y| ≤ 1 := by
      rw [abs_mul]
      exact mul_le_one₀ hy (abs_nonneg _) hpy
    have h3 : |g.z * p.z| ≤ 1 := by
      rw [abs_mul]
      exact mul_le_one₀ hz (abs_nonneg _) hpz
    unfold Vec3.dot
    calc |g.x * p.x + g.y * p.y + g.z * p.z|
        ≤ |g.x * p.x + g.y * p.y| + |g.z * p.z| := abs_add _ _
      _ ≤ |g.x * p.x| + |g.y * p.y| + |g.z * p.z| := by linarith [abs_add (g.x * p.x) (g.y * p.y)]
      _ ≤ 3 := by linarith
  calc |BasicShader.taylorInvSqrt (Vec3.dot g g)| * |Vec3.dot g p|
      ≤ (9/5) * 3 := mul_le_mul ht hgp (abs_nonneg _) (by norm_num)
    _ = 27/5 := by norm_num

/-- Universal bound on the periodic Perlin noise of the basic shader:
its absolute value never exceeds `2.2 * 27/5 = 11.88`.  (In particular the
`* 0.05` noise modulation in the bulge magnitude stays strictly above
`-1`.) -/
theorem pnoise_abs_le (P rep : Vec3 ℝ) : |BasicShader.pnoise P rep| ≤ 297/25 := by
  have hfx := fade_mem (Glsl.fract_nonneg P.x) (Glsl.fract_lt_one P.x).le
  have hfy := fade_mem (Glsl.fract_nonneg P.y) (Glsl.fract_lt_one P.y).le
  have hfz := fade_mem (Glsl.fract_nonneg P.z) (Glsl.fract_lt_one P.z).le
  have hPx := Glsl.abs_fract_le_one P.x
  have hPy := Glsl.abs_fract_le_one P.y
  have hPz := Glsl.abs_fract_le_one P.z
  have hQx := Glsl.abs_fract_sub_one_le_one P.x
  have hQy := Glsl.abs_fract_sub_one_le_one P.y
  have hQz := Glsl.abs_fract_sub_one_le_one P.z
  simp only [BasicShader.pnoise]
  rw [show (297/25 : ℝ) = (11/5) * (27/5) by norm_num, abs_mul,
    abs_of_nonneg (by norm_num : (0:ℝ) ≤ 11/5)]
  apply mul_le_mul_of_nonneg_left ?_ (by norm_num : (0:ℝ) ≤ 11/5)
  apply Glsl.mix_abs_le ?_ ?_ hfx.1 hfx.2 <;>
    apply Glsl.mix_abs_le ?_ ?_ hfy.1 hfy.2 <;>
    apply Glsl.mix_abs_le ?_ ?_ hfz.1 hfz.2 <;>
    apply nCorner_abs_le <;>
    assumption

namespace BasicShader

/-- `calculateBulgeDisplacement` of the basic vertex shader (part_000
lines 112–134): cubic falloff, sinusoidal animation offset
`sin(uTime*1.5)*0.05 + 0.95`, a `pnoise`-based magnitude modulation
`(1 + noise)` with `noise = pnoise(worldPos*2 + uTime*0.3, vec3(10))*0.05`,
and displacement along `normalize(normal)`. -/
noncomputable def calculateBulgeDisplacement (uTime : ℝ)
    (worldPos normal mousePos : Vec3 ℝ) (strength radius intensity : ℝ) : Vec3 ℝ :=
  let distance := Vec3.length (Vec3.sub worldPos mousePos)
  let falloff := smoothFalloff distance radius
  if falloff ≤ 1/1000 then ⟨0, 0, 0⟩
  else
    let animationOffset := Real.sin (uTime * (3/2)) * (1/20) + 19/20
    let bulgeDirection := Vec3.normalize normal
    let noisePos := Vec3.add (Vec3.scale 2 worldPos)
      ⟨uTime * (3/10), uTime * (3/10), uTime * (3/10)⟩
    let noise := pnoise noisePos ⟨10, 10, 10⟩ * (1/20)
    let bulgeAmount := strength * falloff * intensity * animationOffset * (1 + noise) * (11/5)
    Vec3.scale bulgeAmount bulgeDirection

end BasicShader

namespace EnhancedShader

/-- `calculateBulgeDisplacement` of the enhanced vertex shader
(fragment.glsl lines 209–228): quadratic falloff, animation offset
`sin(uTime*2)*0.1 + 0.9`, and — in addition to the normal-direction term —
a time-based horizontal displacement scaled by `falloff * strength`. -/
noncomputable def calculateBulgeDisplacement (uTime : ℝ)
    (worldPos normal mousePos : Vec3 ℝ) (strength radius intensity : ℝ) : Vec3 ℝ :=
  let distance := Vec3.length (Vec3.sub worldPos mousePos)
  let falloff := smoothFalloff distance radius
  if falloff ≤ 1/1000 then ⟨0, 0, 0⟩
  else
    let animationOffset := Real.sin (uTime * 2) * (1/10) + 9/10
    let bulgeAmount := strength * falloff * intensity * animationOffset
    let horizontalDisplacement : Vec3 ℝ :=
      ⟨Real.sin (uTime * 3) * (1/50), Real.cos (uTime * (5/2)) * (1/50),
       Real.sin (uTime * (9/5)) * (1/50)⟩
    Vec3.add (Vec3.scale bulgeAmount normal)
      (Vec3.scale strength (Vec3.scale falloff horizontalDisplacement))

end EnhancedShader

/-- Counterexample to C3 as stated over the enhanced shader's bulge: at
`uTime = π`, `worldPos = mousePos = 0`, `normal = (0,0,1)`, `strength = 1`,
`radius = 1`, `intensity = 0`, the normal-direction term vanishes but the
horizontal displacement contributes `sin(1.8π)/50 < 0` along z, so the
returned displacement points into the negative normal half-space and is
not a nonnegative scalar multiple of the normal. -/
theorem enhancedBulge_not_along_normal :
    Vec3.dot (EnhancedShader.calculateBulgeDisplacement Real.pi
      ⟨0, 0, 0⟩ ⟨0, 0, 1⟩ ⟨0, 0, 0⟩ 1 1 0) ⟨0, 0, 1⟩ < 0 ∧
    ¬ ∃ c : ℝ, 0 ≤ c ∧
      EnhancedShader.calculateBulgeDisplacement Real.pi
        ⟨0, 0, 0⟩ ⟨0, 0, 1⟩ ⟨0, 0, 0⟩ 1 1 0 = Vec3.scale c ⟨0, 0, 1⟩ := by
  have hpi := Real.pi_pos
  have hlen : Vec3.length (Vec3.sub (⟨0, 0, 0⟩ : Vec3 ℝ) ⟨0, 0, 0⟩) = 0 := by
    simp [Vec3.length, Vec3.sub, Vec3.dot, Real.sqrt_zero]
  have hfall : EnhancedShader.smoothFalloff (0:ℝ) 1 = 1 := by
    norm_num [EnhancedShader.smoothFalloff]
  have hsin3 : Real.sin (Real.pi * 3) = 0 := by
    rw [mul_comm]
    simpa using Real.sin_nat_mul_pi 3
  have hcos52 : Real.cos (Real.pi * (5/2)) = 0 := by
    rw [show Real.pi * (5/2) = Real.pi/2 + 2*Real.pi by ring, Real.cos_add_two_pi,
      Real.cos_pi_div_two]
  have hsin95 : Real.sin (Real.pi * (9/5)) = -Real.sin (Real.pi/5) := by
    rw [show Real.pi * (9/5) = 2*Real.pi - Real.pi/5 by ring, Real.sin_two_pi_sub]
  have hp5 : 0 < Real.sin (Real.pi/5) :=
    Real.sin_pos_of_pos_of_lt_pi (by positivity) (by linarith)
  have hB : EnhancedShader.calculateBulgeDisplacement Real.pi
      ⟨0, 0, 0⟩ ⟨0, 0, 1⟩ ⟨0, 0, 0⟩ 1 1 0
      = ⟨0, 0, -Real.sin (Real.pi/5) * (1/50)⟩ := by
    simp only [EnhancedShader.calculateBulgeDisplacement]
    rw [hlen, hfall, if_neg (by norm_num : ¬ ((1:ℝ) ≤ 1/1000))]
    simp only [Vec3.add, Vec3.scale, Vec3.mk.injEq]
    refine ⟨by rw [hsin3]; ring, by rw [hcos52]; ring, by rw [hsin95]; ring⟩
  refine ⟨?_, ?_⟩
  · rw [hB]
    simp only [Vec3.dot]
    nlinarith [hp5]
  · rintro ⟨c, hc, heq⟩
    rw [hB] at heq
    have hz := congrArg Vec3.z heq
    simp only [Vec3.scale] at hz
    nlinarith [hp5]

/-- C3 (amended, basic shader): with nonnegative strength and intensity the
basic vertex shader's bulge displacement is a nonnegative scalar multiple
of the surface normal, hence lies in the normal's half-space, and the
`pnoise`-based modulation of the magnitude never inverts its sign
(`1 + noise` stays strictly positive).  The enhanced shader's variant
additionally adds a horizontal term and does not satisfy this (see the
counterexample above). -/
theorem bulge_displacement_along_normal (uTime : ℝ)
    (worldPos normal mousePos : Vec3 ℝ) (strength radius intensity : ℝ)
    (hs : 0 ≤ strength) (hi : 0 ≤ intensity) :
    (∃ c : ℝ, 0 ≤ c ∧
      BasicShader.calculateBulgeDisplacement uTime worldPos normal mousePos
        strength radius intensity = Vec3.scale c normal) ∧
    0 ≤ Vec3.dot (BasicShader.calculateBulgeDisplacement uTime worldPos normal mousePos
        strength radius intensity) normal ∧
    0 < 1 + BasicShader.pnoise
        (Vec3.add (Vec3.scale 2 worldPos) ⟨uTime * (3/10), uTime * (3/10), uTime * (3/10)⟩)
        ⟨10, 10, 10⟩ * (1/20) := by
  have hnz : 0 < 1 + BasicShader.pnoise
      (Vec3.add (Vec3.scale 2 worldPos) ⟨uTime * (3/10), uTime * (3/10), uTime * (3/10)⟩)
      ⟨10, 10, 10⟩ * (1/20) := by
    have hb := (abs_le.mp (pnoise_abs_le
      (Vec3.add (Vec3.scale 2 worldPos) ⟨uTime * (3/10), uTime * (3/10), uTime * (3/10)⟩)
      ⟨10, 10, 10⟩)).1
    linarith
  have hd0 : 0 ≤ Vec3.length (Vec3.sub worldPos mousePos) := Real.sqrt_nonneg _
  have hf0 : 0 ≤ BasicShader.smoothFalloff (Vec3.length (Vec3.sub worldPos mousePos)) radius :=
    basic_smoothFalloff_nonneg _ _ hd0
  have hanim : 0 ≤ Real.sin (uTime * (3/2)) * (1/20) + 19/20 := by
    have := Real.neg_one_le_sin (uTime * (3/2))
    linarith
  have hbA : 0 ≤ strength *
      BasicShader.smoothFalloff (Vec3.length (Vec3.sub worldPos mousePos)) radius *
      intensity * (Real.sin (uTime * (3/2)) * (1/20) + 19/20) *
      (1 + BasicShader.pnoise
        (Vec3.add (Vec3.scale 2 worldPos) ⟨uTime * (3/10), uTime * (3/10), uTime * (3/10)⟩)
        ⟨10, 10, 10⟩ * (1/20)) * (11/5) :=
    mul_nonneg (mul_nonneg (mul_nonneg (mul_nonneg (mul_nonneg hs hf0) hi) hanim) hnz.le)
      (by norm_num)
  have hex : ∃ c : ℝ, 0 ≤ c ∧
      BasicShader.calculateBulgeDisplacement uTime worldPos normal mousePos
        strength radius intensity = Vec3.scale c normal := by
    simp only [BasicShader.calculateBulgeDisplacement]
    split_ifs with hfcond
    · exact ⟨0, le_refl 0, by simp [Vec3.scale]⟩
    · refine ⟨(strength *
        BasicShader.smoothFalloff (Vec3.length (Vec3.sub worldPos mousePos)) radius *
        intensity * (Real.sin (uTime * (3/2)) * (1/20) + 19/20) *
        (1 + BasicShader.pnoise
          (Vec3.add (Vec3.scale 2 worldPos) ⟨uTime * (3/10), uTime * (3/10), uTime * (3/10)⟩)
          ⟨10, 10, 10⟩ * (1/20)) * (11/5)) / Vec3.length normal, ?_, ?_⟩
      · exact div_nonneg hbA (Real.sqrt_nonneg _)
      · simp only [Vec3.normalize, Vec3.scale, Vec3.mk.injEq]
        refine ⟨by ring, by ring, by ring⟩
  refine ⟨hex, ?_, hnz⟩
  obtain ⟨c, hc0, hceq⟩ := hex
  rw [hceq]
  have hrw : Vec3.dot (Vec3.scale c normal) normal = c * Vec3.dot normal normal := by
    simp only [Vec3.dot, Vec3.scale]
    ring
  rw [hrw]
  exact mul_nonneg hc0 (by
    simp only [Vec3.dot]
    nlinarith [mul_self_nonneg normal.x, mul_self_nonneg normal.y, mul_self_nonneg normal.z])

/-- Witness for C3 (amended) at `uTime = 0`, unit strength/intensity,
normal `(0,0,1)`, pointer at the surface point. -/
theorem bulge_displacement_along_normal_witness :
    (∃ c : ℝ, 0 ≤ c ∧
      BasicShader.calculateBulgeDisplacement 0 ⟨0, 0, 0⟩ ⟨0, 0, 1⟩ ⟨0, 0, 0⟩ 1 1 1
        = Vec3.scale c ⟨0, 0, 1⟩) ∧
    0 ≤ Vec3.dot (BasicShader.calculateBulgeDisplacement 0 ⟨0, 0, 0⟩ ⟨0, 0, 1⟩ ⟨0, 0, 0⟩ 1 1 1)
      ⟨0, 0, 1⟩ ∧
    0 < 1 + BasicShader.pnoise
        (Vec3.add (Vec3.scale 2 ⟨0, 0, 0⟩) ⟨0 * (3/10), 0 * (3/10), 0 * (3/10)⟩)
        ⟨10, 10, 10⟩ * (1/20) :=
  bulge_displacement_along_normal 0 ⟨0, 0, 0⟩ ⟨0, 0, 1⟩ ⟨0, 0, 0⟩ 1 1 1 zero_le_one zero_le_one
